import Mathlib

/-!
Verification of the chat-interface synchronization logic of the
vijay-travel-bot admin panel (`admin_panel/src/pages/ChatInterface.tsx`).

The React component is shallowly embedded: its `useState` fields become a
`ChatState` record, and each async handler (`fetchConversations`,
`fetchMessages`, `handleSend`, the polling `useEffect`) becomes a pure
function from the current state and the network outcome to the new state
plus a trace of observable events (requests issued, state commits,
notifications shown).  The scheduling model follows the source: a single
logical thread with suspension only at `await` points, so consecutive
`setState` calls with no `await` in between commit together, while
responses of distinct in-flight fetches may arrive in any order.
-/

/-- Enum `sender_type` of a message: `'user' | 'bot' | 'admin'`
(ChatInterface.tsx, `interface Message`). -/
inductive SenderType where
  | user
  | bot
  | admin
  deriving DecidableEq

/-- The `User` record as transferred by the API (ChatInterface.tsx,
`interface User`); `last_message_at` and `timestamp` strings are kept
abstract as `String`. -/
structure User where
  id : Nat
  phone : String
  name : Option String
  bot_paused : Bool
  trip_status : String
  last_message_at : Option String
  deriving DecidableEq

/-- The `Message` record (ChatInterface.tsx, `interface Message`). -/
structure Message where
  id : Nat
  user_id : Nat
  content : String
  sender_type : SenderType
  timestamp : String
  is_read : Bool
  deriving DecidableEq

/-- The `Conversation` projection (ChatInterface.tsx,
`interface Conversation`). -/
structure Conversation where
  user : User
  latest_message : Option Message
  unread_count : Nat
  deriving DecidableEq

/-- The client-side state of the `ChatInterface` component: one field per
`useState` hook (ChatInterface.tsx lines 368-374). -/
structure ChatState where
  conversations : List Conversation
  selectedUser : Option User
  messages : List Message
  newMessage : String
  loading : Bool
  sending : Bool
  sendViaWhatsApp : Bool
  deriving DecidableEq

/-- The `useState` initial values: `[]`, `null`, `[]`, `''`, `true`,
`false`, `true` (ChatInterface.tsx lines 368-374). -/
def initialState : ChatState :=
  { conversations := []
  , selectedUser := none
  , messages := []
  , newMessage := ""
  , loading := true
  , sending := false
  , sendViaWhatsApp := true }

/-- Observable events of one handler run: HTTP requests issued through
`chatApi`, commits of component state, and `notify` calls.  Notification
payloads are irrelevant to the claims and elided. -/
inductive Event where
  | reqGetConversations
  | commitConversations (cs : List Conversation)
  | reqGetMessages (uid : Nat)
  | commitThread (u : User) (msgs : List Message)
  | reqMarkAsRead (uid : Nat)
  | reqSendMessage (uid : Nat) (content : String) (viaWA : Bool)
  | notifyFailure
  | notifySuccess
  deriving DecidableEq

/-- Constructor tags of `Event`, used to state ordering properties of a
trace independently of event payloads. -/
inductive ETag where
  | getConvs
  | commitConvs
  | getMsgs
  | commitThread
  | markRead
  | sendMsg
  | noteFail
  | noteOk
  deriving DecidableEq

/-- Tag of an event. -/
def Event.tag : Event → ETag
  | Event.reqGetConversations => ETag.getConvs
  | Event.commitConversations _ => ETag.commitConvs
  | Event.reqGetMessages _ => ETag.getMsgs
  | Event.commitThread _ _ => ETag.commitThread
  | Event.reqMarkAsRead _ => ETag.markRead
  | Event.reqSendMessage _ _ _ => ETag.sendMsg
  | Event.notifyFailure => ETag.noteFail
  | Event.notifySuccess => ETag.noteOk

/-- Number of occurrences of a tag in a trace. -/
def countTag (t : ETag) : List ETag → Nat
  | [] => 0
  | x :: xs => (if x = t then 1 else 0) + countTag t xs

/-- Index of the first occurrence of a tag in a trace (length if absent). -/
def firstIdx (t : ETag) : List ETag → Nat
  | [] => 0
  | x :: xs => if x = t then 0 else firstIdx t xs + 1

/-- Whitespace recognized by ECMAScript `String.prototype.trim`
(WhiteSpace and LineTerminator code points). -/
def isJsWhitespace (c : Char) : Bool :=
  let n := c.toNat
  n == 9 || n == 10 || n == 11 || n == 12 || n == 13 || n == 32 ||
  n == 160 || n == 0x1680 ||
  (decide (0x2000 ≤ n) && decide (n ≤ 0x200A)) ||
  n == 0x2028 || n == 0x2029 || n == 0x202F || n == 0x205F ||
  n == 0x3000 || n == 0xFEFF

/-- Character list of `text.trim()`. -/
def jsTrimmedChars (s : String) : List Char :=
  ((s.data.dropWhile isJsWhitespace).reverse.dropWhile isJsWhitespace).reverse

/-- JS truthiness test `!text.trim()` used in the `handleSend` guard:
true exactly when the trimmed text is the empty string. -/
def isBlank (s : String) : Bool :=
  (jsTrimmedChars s).isEmpty

/-- Backend response shape of `GET /users/id/messages`:
`{user, messages}` (consumed by `chatApi.getMessages`). -/
structure ThreadResp where
  user : User
  messages : List Message
  deriving DecidableEq

/-- The commit performed when a `chatApi.getMessages` response arrives:
`setSelectedUser(data.user); setMessages(data.messages)` with no `await`
between the two calls and no check against the current selection
(ChatInterface.tsx lines 392-393). -/
def commitThreadResponse (s : ChatState) (r : ThreadResp) : ChatState :=
  { s with selectedUser := some r.user, messages := r.messages }

/-- Outcome of one `fetchMessages` run: either `getMessages` resolves with
a response (and `markAsRead` then either resolves, `markReadOk = true`, or
rejects), or `getMessages` itself rejects. -/
inductive FetchOutcome where
  | ok (resp : ThreadResp) (markReadOk : Bool)
  | err
  deriving DecidableEq

/-- `fetchMessages(uid)` (ChatInterface.tsx lines 389-400): awaits
`chatApi.getMessages(uid, 1, 100)`; on success commits the user and the
messages together, then awaits `chatApi.markAsRead(uid)`, then fires
`fetchConversations()` without awaiting it; any rejection inside the `try`
is caught and surfaced as a failure notification. -/
def fetchMessages (uid : Nat) (o : FetchOutcome) (s : ChatState) :
    ChatState × List Event :=
  match o with
  | FetchOutcome.ok resp mrOk =>
      (commitThreadResponse s resp,
       [Event.reqGetMessages uid,
        Event.commitThread resp.user resp.messages,
        Event.reqMarkAsRead uid] ++
         (if mrOk then [Event.reqGetConversations] else [Event.notifyFailure]))
  | FetchOutcome.err =>
      (s, [Event.reqGetMessages uid, Event.notifyFailure])

/-- Outcome of one `fetchConversations` run. -/
inductive ConvOutcome where
  | ok (data : List Conversation)
  | err
  deriving DecidableEq

/-- `fetchConversations()` (ChatInterface.tsx lines 379-386): awaits
`chatApi.getConversations(1, 50)`; on success replaces `conversations`
wholesale; on rejection notifies failure and touches nothing. -/
def fetchConversations (o : ConvOutcome) (s : ChatState) :
    ChatState × List Event :=
  match o with
  | ConvOutcome.ok data =>
      ({ s with conversations := data },
       [Event.reqGetConversations, Event.commitConversations data])
  | ConvOutcome.err =>
      (s, [Event.reqGetConversations, Event.notifyFailure])

/-- Outcome of one `handleSend` run past its guard: either
`chatApi.sendMessage` rejects, or it resolves and the inner
`fetchMessages` reload runs with its own outcome. -/
inductive SendOutcome where
  | sendFail
  | sendOk (reload : FetchOutcome)
  deriving DecidableEq

/-- `handleSend` (ChatInterface.tsx lines 403-418): returns early when
`!newMessage.trim() || !selectedUser`; otherwise sets `sending`, awaits
`chatApi.sendMessage(selectedUser.id, newMessage, sendViaWhatsApp)`, on
success clears the compose box, awaits `fetchMessages(selectedUser.id)`
(which never throws — it catches internally) and notifies success; on
rejection notifies failure; `finally` clears `sending`.  Note the guard
checks only blank text and missing selection — `sending` is not tested
here. -/
def handleSend (s : ChatState) (o : SendOutcome) : ChatState × List Event :=
  if isBlank s.newMessage || s.selectedUser.isNone then (s, [])
  else
    match s.selectedUser with
    | none => (s, [])
    | some u =>
        let s1 : ChatState := { s with sending := true }
        match o with
        | SendOutcome.sendFail =>
            ({ s1 with sending := false },
             [Event.reqSendMessage u.id s.newMessage s.sendViaWhatsApp,
              Event.notifyFailure])
        | SendOutcome.sendOk fo =>
            let s2 : ChatState := { s1 with newMessage := "" }
            let fm := fetchMessages u.id fo s2
            ({ fm.1 with sending := false },
             Event.reqSendMessage u.id s.newMessage s.sendViaWhatsApp ::
               (fm.2 ++ [Event.notifySuccess]))

/-- Final state of a `handleSend` run. -/
def sendFinal (s : ChatState) (o : SendOutcome) : ChatState :=
  (handleSend s o).1

/-- Event trace of a `handleSend` run. -/
def sendTrace (s : ChatState) (o : SendOutcome) : List Event :=
  (handleSend s o).2

/-- Tag trace of a `handleSend` run. -/
def sendTags (s : ChatState) (o : SendOutcome) : List ETag :=
  (sendTrace s o).map Event.tag

/-- Tag trace of a `fetchMessages` run. -/
def fmTags (uid : Nat) (o : FetchOutcome) (s : ChatState) : List ETag :=
  ((fetchMessages uid o s).2).map Event.tag

/-- The `disabled` predicate of the send button:
`disabled={sending || !newMessage.trim()}` (ChatInterface.tsx line 603).
A disabled MUI `IconButton` fires no `onClick`. -/
def sendButtonDisabled (s : ChatState) : Bool :=
  s.sending || isBlank s.newMessage

/-- The `disabled` predicate of the compose `TextField`:
`disabled={sending}` (ChatInterface.tsx line 599).  A disabled input
receives no key events, so its Enter handler cannot run. -/
def composerDisabled (s : ChatState) : Bool :=
  s.sending

/-- A send dispatched by clicking the send button: the click reaches
`handleSend` only when the button is not disabled. -/
def clickSend (s : ChatState) (o : SendOutcome) : ChatState × List Event :=
  if sendButtonDisabled s then (s, []) else handleSend s o

/-- A send dispatched by pressing Enter in the compose field: the key
event reaches `handleSend` only when the field is not disabled. -/
def enterKeySend (s : ChatState) (o : SendOutcome) : ChatState × List Event :=
  if composerDisabled s then (s, []) else handleSend s o

/-- One step of the conversation-selection race: `issue uid` is a click on
a conversation (ChatInterface.tsx lines 509-512) — it starts a
`fetchMessages(uid)` network call and changes no thread state by itself;
`arrive r` is the later arrival of some in-flight `getMessages` response,
whose continuation commits `r` unconditionally (lines 392-393). -/
inductive SelStep where
  | issue (uid : Nat)
  | arrive (r : ThreadResp)
  deriving DecidableEq

/-- Runs a schedule of selection clicks and response arrivals against the
component state, exactly as the unguarded handler does. -/
def runSelSchedule (s : ChatState) (steps : List SelStep) : ChatState :=
  steps.foldl
    (fun st step =>
      match step with
      | SelStep.issue _ => st
      | SelStep.arrive r => commitThreadResponse st r)
    s

/-- A backend thread response is internally consistent when every message
in it belongs to the user it reports. -/
def respConsistent (r : ThreadResp) : Bool :=
  r.messages.all (fun m => m.user_id == r.user.id)

/-- The rendered view is consistent when every displayed message belongs
to the user shown in the thread header. -/
def viewConsistent (s : ChatState) : Bool :=
  match s.selectedUser with
  | none => true
  | some u => s.messages.all (fun m => m.user_id == u.id)

/-- A small model of the browser interval-timer table: ids handed out by
`setInterval` and the set of ids still active. -/
structure TimerSys where
  nextId : Nat
  active : List Nat
  deriving DecidableEq

/-- `setInterval(...)`: registers a fresh timer id and returns it
(ChatInterface.tsx line 458). -/
def setIntervalTimer (t : TimerSys) : Nat × TimerSys :=
  (t.nextId, { nextId := t.nextId + 1, active := t.active ++ [t.nextId] })

/-- `clearInterval(interval)`: deactivates the id; a cleared id never
fires again (ChatInterface.tsx line 464, the effect cleanup). -/
def clearIntervalTimer (t : TimerSys) (id : Nat) : TimerSys :=
  { t with active := t.active.filter (fun i => i != id) }

/-- Requests issued by one firing of the 10-second poll callback
(ChatInterface.tsx lines 458-463): `fetchConversations()` and, when a
conversation is selected, `fetchMessages(selectedUser.id)`. -/
def pollTickEvents (s : ChatState) : List Event :=
  Event.reqGetConversations ::
    (match s.selectedUser with
     | some u => [Event.reqGetMessages u.id]
     | none => [])

/-- Concatenation of `n` copies of an event list. -/
def repeatedEvents : Nat → List Event → List Event
  | 0, _ => []
  | n + 1, evs => evs ++ repeatedEvents n evs

/-- All requests the timer with the given id issues over the next `w`
interval windows: one poll tick per window while the id is active, none
once it has been cleared. -/
def timerWindowEvents (t : TimerSys) (id : Nat) (s : ChatState) (w : Nat) :
    List Event :=
  if id ∈ t.active then repeatedEvents w (pollTickEvents s) else []

/-! Concrete sample data used by counterexamples and witnesses. -/

/-- Sample user with id 1. -/
def userA : User :=
  { id := 1
  , phone := "919000000001"
  , name := some "Alice"
  , bot_paused := false
  , trip_status := "active"
  , last_message_at := none }

/-- Sample user with id 2. -/
def userB : User :=
  { id := 2
  , phone := "919000000002"
  , name := none
  , bot_paused := true
  , trip_status := "upcoming"
  , last_message_at := none }

/-- A message in user 1's thread. -/
def msgA : Message :=
  { id := 10
  , user_id := 1
  , content := "hello from one"
  , sender_type := SenderType.user
  , timestamp := "2025-01-01T10:00:00"
  , is_read := true }

/-- A message in user 2's thread. -/
def msgB : Message :=
  { id := 20
  , user_id := 2
  , content := "hello from two"
  , sender_type := SenderType.bot
  , timestamp := "2025-01-01T11:00:00"
  , is_read := false }

/-- Thread response for user 1. -/
def respA : ThreadResp := { user := userA, messages := [msgA] }

/-- Thread response for user 2. -/
def respB : ThreadResp := { user := userB, messages := [msgB] }

/-- The racing schedule of claim C1: conversation 1 is clicked, then
conversation 2, then user 2's response arrives and commits, and finally
user 1's slow response arrives — after B was both issued and committed. -/
def staleSchedule : List SelStep :=
  [SelStep.issue 1, SelStep.issue 2, SelStep.arrive respB, SelStep.arrive respA]

/-- A state with user 1 selected, a non-blank compose box and a send
already in flight. -/
def dupSendState : ChatState :=
  { initialState with
      selectedUser := some userA
    , messages := [msgA]
    , newMessage := "Hello"
    , loading := false
    , sending := true }

/-- A state with user 1 selected and a non-blank compose box, idle. -/
def readySendState : ChatState :=
  { initialState with
      selectedUser := some userA
    , messages := [msgA]
    , newMessage := "Hi there"
    , loading := false }

/-- A state with a whitespace-only compose box. -/
def blankSendState : ChatState :=
  { initialState with
      selectedUser := some userA
    , newMessage := "   "
    , loading := false }

/-- A state with a non-blank compose box but no conversation selected. -/
def noSelectionState : ChatState :=
  { initialState with newMessage := "Hello", loading := false }

/-! Helper lemmas. -/

/-- Dropping with a predicate every element satisfies drops everything. -/
theorem dropWhile_eq_nil_of_all {α : Type} {p : α → Bool} {l : List α}
    (h : ∀ c ∈ l, p c = true) : l.dropWhile p = [] :=
  List.dropWhile_eq_nil_iff.mpr h

/-- A whitespace-only compose text is blank in the sense of the
`handleSend` guard. -/
theorem isBlank_of_all_whitespace {s : String}
    (h : ∀ c ∈ s.data, isJsWhitespace c = true) : isBlank s = true := by
  simp [isBlank, jsTrimmedChars, dropWhile_eq_nil_of_all h]

/-! Claim theorems. -/

/-- Claim C5 (confirmed): a failing `fetchConversations` run leaves the
whole component state — in particular `conversations` — exactly as it
was, and its trace shows the issued request followed by a failure
notification and nothing else (no commit event). -/
theorem refreshConversations_failure_atomicity (s : ChatState) :
    (fetchConversations ConvOutcome.err s).1 = s ∧
    (fetchConversations ConvOutcome.err s).2 =
      [Event.reqGetConversations, Event.notifyFailure] :=
  ⟨rfl, rfl⟩

/-- Claim C9 (confirmed): after the polling effect's cleanup runs
`clearInterval` on the id its setup obtained from `setInterval`, that
timer issues zero poll-triggered requests in every subsequent window, for
any component state and any number of windows. -/
theorem stopPolling_no_further_fetches (t : TimerSys) (s : ChatState) (w : Nat) :
    timerWindowEvents
      (clearIntervalTimer (setIntervalTimer t).2 (setIntervalTimer t).1)
      (setIntervalTimer t).1 s w = [] := by
  have hmem : (setIntervalTimer t).1 ∉
      (clearIntervalTimer (setIntervalTimer t).2 (setIntervalTimer t).1).active := by
    simp [clearIntervalTimer, setIntervalTimer, List.mem_filter]
  simp [timerWindowEvents, hmem]

/-- Claim C1, counterexample: with `selectConversation(1)` issued, then
`selectConversation(2)`, then user 2's response arriving and committing,
then user 1's slow response arriving (so A's fetch resolves after B's call
was issued, as the claim requires), the committed state is user 1's data,
not user 2's — the late response is committed, not discarded. -/
theorem selectConversation_stale_commit_cex :
    (runSelSchedule initialState staleSchedule).selectedUser = some userA ∧
    (runSelSchedule initialState staleSchedule).messages = respA.messages ∧
    (runSelSchedule initialState staleSchedule).selectedUser ≠ some userB ∧
    (runSelSchedule initialState staleSchedule).messages ≠ respB.messages := by
  refine ⟨rfl, rfl, ?_, ?_⟩ <;> decide

/-- Claim C1 as amended (the response-arrival handler commits
unconditionally, so arrival order alone decides): after any schedule of
selection clicks and response arrivals, the committed `selectedUser` and
thread equal the data of whichever thread response arrived last — B's
data exactly when B's response arrived last, and A's data when A's
response arrived after B's, since `fetchMessages` checks nothing against
the current selection before committing. -/
theorem selectConversation_last_arrival_wins (s : ChatState)
    (steps : List SelStep) (r : ThreadResp) :
    (runSelSchedule s (steps ++ [SelStep.arrive r])).selectedUser = some r.user ∧
    (runSelSchedule s (steps ++ [SelStep.arrive r])).messages = r.messages := by
  constructor <;> simp [runSelSchedule, List.foldl_append, commitThreadResponse]

/-- Claim C3 (confirmed): a successful `loadThread` commits `selectedUser`
and `thread` together from the same backend response, so whenever that
response is internally consistent, the committed view shows only messages
belonging to the user in the header — from any prior state; and a failed
`loadThread` changes nothing, preserving whatever view was shown. -/
theorem loadThread_atomic_commit (s : ChatState) (uid : Nat)
    (resp : ThreadResp) (mrOk : Bool) (hresp : respConsistent resp = true) :
    (fetchMessages uid (FetchOutcome.ok resp mrOk) s).1.selectedUser = some resp.user ∧
    (fetchMessages uid (FetchOutcome.ok resp mrOk) s).1.messages = resp.messages ∧
    viewConsistent (fetchMessages uid (FetchOutcome.ok resp mrOk) s).1 = true ∧
    (fetchMessages uid FetchOutcome.err s).1 = s := by
  refine ⟨rfl, rfl, ?_, rfl⟩
  simpa [fetchMessages, commitThreadResponse, viewConsistent, respConsistent]
    using hresp

/-- Claim C3 witness: instantiated at user 2's concrete response. -/
theorem loadThread_atomic_commit_wit :
    respConsistent respB = true ∧
    viewConsistent (fetchMessages 2 (FetchOutcome.ok respB true) initialState).1 = true :=
  ⟨by decide,
   (loadThread_atomic_commit initialState 2 respB true (by decide)).2.2.1⟩

/-- Claim C4 (confirmed): in every `loadThread` run, the mark-read request
appears exactly once and only after the thread fetch request and its
successful commit; the conversations refresh, when issued (mark-read
resolved), appears only after the mark-read request; and a failed thread
fetch issues no mark-read at all. -/
theorem loadThread_markRead_ordering (uid : Nat) (resp : ThreadResp)
    (mrOk : Bool) (s : ChatState) :
    countTag ETag.markRead (fmTags uid (FetchOutcome.ok resp mrOk) s) = 1 ∧
    firstIdx ETag.getMsgs (fmTags uid (FetchOutcome.ok resp mrOk) s) <
      firstIdx ETag.markRead (fmTags uid (FetchOutcome.ok resp mrOk) s) ∧
    firstIdx ETag.commitThread (fmTags uid (FetchOutcome.ok resp mrOk) s) <
      firstIdx ETag.markRead (fmTags uid (FetchOutcome.ok resp mrOk) s) ∧
    (mrOk = true →
      firstIdx ETag.markRead (fmTags uid (FetchOutcome.ok resp mrOk) s) <
        firstIdx ETag.getConvs (fmTags uid (FetchOutcome.ok resp mrOk) s)) ∧
    (mrOk = false →
      countTag ETag.getConvs (fmTags uid (FetchOutcome.ok resp mrOk) s) = 0) ∧
    countTag ETag.markRead (fmTags uid FetchOutcome.err s) = 0 := by
  cases mrOk <;>
    simp [fmTags, fetchMessages, Event.tag, countTag, firstIdx]

/-- Claim C4 witness: instantiated at user 1's concrete response with
mark-read resolving, discharging the conditional parts. -/
theorem loadThread_markRead_ordering_wit :
    countTag ETag.markRead (fmTags 1 (FetchOutcome.ok respA true) initialState) = 1 ∧
    firstIdx ETag.markRead (fmTags 1 (FetchOutcome.ok respA true) initialState) <
      firstIdx ETag.getConvs (fmTags 1 (FetchOutcome.ok respA true) initialState) :=
  ⟨(loadThread_markRead_ordering 1 respA true initialState).1,
   (loadThread_markRead_ordering 1 respA true initialState).2.2.2.1 rfl⟩

/-- Claim C2, counterexample: `handleSend` invoked while `sending` is
already true, with non-blank text and a selected user, is not a local
no-op — it issues the `sendMessage` network request and changes state (the
guard at line 404 tests only blank text and missing selection, never
`sending`). -/
theorem handleSend_while_sending_cex :
    dupSendState.sending = true ∧
    Event.reqSendMessage 1 "Hello" true ∈ (handleSend dupSendState SendOutcome.sendFail).2 ∧
    (handleSend dupSendState SendOutcome.sendFail).1 ≠ dupSendState := by
  refine ⟨rfl, ?_, ?_⟩ <;> decide

/-- Claim C2 as amended: duplicate sends while one is in flight are
prevented not inside `handleSend` but by the rendering layer — both entry
points to `handleSend` are disabled whenever `sending` is true (the send
button via `sending or blank`, the compose field via `sending`), so a
send dispatched through the UI while `sending` is true is a no-op that
issues no network call and changes no state; `handleSend` itself does not
test `sending`. -/
theorem ui_send_while_sending_noop (s : ChatState) (o : SendOutcome)
    (h : s.sending = true) :
    clickSend s o = (s, []) ∧ enterKeySend s o = (s, []) := by
  constructor <;>
    simp [clickSend, enterKeySend, sendButtonDisabled, composerDisabled, h]

/-- Claim C2 amended witness: instantiated at the concrete in-flight-send
state. -/
theorem ui_send_while_sending_noop_wit :
    clickSend dupSendState SendOutcome.sendFail = (dupSendState, []) ∧
    enterKeySend dupSendState SendOutcome.sendFail = (dupSendState, []) :=
  ui_send_while_sending_noop dupSendState SendOutcome.sendFail rfl

/-- Claim C6 (confirmed): `handleSend` with an empty or whitespace-only
compose text returns before doing anything: no event is emitted (so no
network request) and the state — in particular `sending` — is returned
unchanged, for every outcome the environment could have produced. -/
theorem sendMessage_blank_noop (s : ChatState) (o : SendOutcome)
    (h : ∀ c ∈ s.newMessage.data, isJsWhitespace c = true) :
    handleSend s o = (s, []) := by
  simp [handleSend, isBlank_of_all_whitespace h]

/-- Claim C6 witness: instantiated at the whitespace-only compose state. -/
theorem sendMessage_blank_noop_wit :
    handleSend blankSendState SendOutcome.sendFail = (blankSendState, []) :=
  sendMessage_blank_noop blankSendState SendOutcome.sendFail (by decide)

/-- Claim C10 (confirmed): `handleSend` with no conversation selected
returns before doing anything, even with non-blank text: no event is
emitted and the state — in particular `sending` — is returned unchanged,
for every outcome. -/
theorem sendMessage_no_selection_noop (s : ChatState) (o : SendOutcome)
    (h : s.selectedUser = none) :
    handleSend s o = (s, []) := by
  simp [handleSend, h]

/-- Claim C10 witness: instantiated at the unselected state with
non-blank text. -/
theorem sendMessage_no_selection_noop_wit :
    handleSend noSelectionState SendOutcome.sendFail = (noSelectionState, []) :=
  sendMessage_no_selection_noop noSelectionState SendOutcome.sendFail rfl

/-- Claim C7 (confirmed): when `handleSend` passes its guard and the
network send fails, the final state is the prior state with only `sending`
cleared — the compose text is intact for retry — and the trace is the send
request followed by exactly one failure notification; and on every exit
path, success or failure, the final `sending` is false. -/
theorem sendMessage_failure_atomicity (s : ChatState) (u : User)
    (o : SendOutcome) (hsel : s.selectedUser = some u)
    (hval : isBlank s.newMessage = false) :
    sendFinal s SendOutcome.sendFail = { s with sending := false } ∧
    sendTrace s SendOutcome.sendFail =
      [Event.reqSendMessage u.id s.newMessage s.sendViaWhatsApp,
       Event.notifyFailure] ∧
    (sendFinal s o).sending = false := by
  refine ⟨?_, ?_, ?_⟩
  · simp [sendFinal, handleSend, hsel, hval]
  · simp [sendTrace, handleSend, hsel, hval]
  · cases o with
    | sendFail => simp [sendFinal, handleSend, hsel, hval]
    | sendOk fo => simp [sendFinal, handleSend, hsel, hval]

/-- Claim C7 witness: instantiated at the ready state with a failing
send. -/
theorem sendMessage_failure_atomicity_wit :
    sendFinal readySendState SendOutcome.sendFail =
      { readySendState with sending := false } ∧
    (sendFinal readySendState SendOutcome.sendFail).sending = false :=
  ⟨(sendMessage_failure_atomicity readySendState userA SendOutcome.sendFail
      rfl (by decide)).1,
   (sendMessage_failure_atomicity readySendState userA SendOutcome.sendFail
      rfl (by decide)).2.2⟩

/-- Claim C8 (confirmed): when `handleSend` passes its guard, the backend
post resolves and the reload fetch succeeds with some response, the
compose text ends cleared, the committed thread and header are exactly the
reload response, the reload request targets the selected user, and the
trace contains exactly one thread commit — the reload's, carrying the
reload response — ordered strictly after the send request and the reload
request, so no message is ever inserted into the thread between issuing
the post and committing the reload. -/
theorem sendMessage_success_path (s : ChatState) (u : User)
    (resp : ThreadResp) (mrOk : Bool) (hsel : s.selectedUser = some u)
    (hval : isBlank s.newMessage = false) :
    (sendFinal s (SendOutcome.sendOk (FetchOutcome.ok resp mrOk))).newMessage = "" ∧
    (sendFinal s (SendOutcome.sendOk (FetchOutcome.ok resp mrOk))).messages = resp.messages ∧
    (sendFinal s (SendOutcome.sendOk (FetchOutcome.ok resp mrOk))).selectedUser = some resp.user ∧
    Event.reqGetMessages u.id ∈ sendTrace s (SendOutcome.sendOk (FetchOutcome.ok resp mrOk)) ∧
    countTag ETag.commitThread (sendTags s (SendOutcome.sendOk (FetchOutcome.ok resp mrOk))) = 1 ∧
    (∀ u2 ms, Event.commitThread u2 ms ∈
        sendTrace s (SendOutcome.sendOk (FetchOutcome.ok resp mrOk)) →
      u2 = resp.user ∧ ms = resp.messages) ∧
    firstIdx ETag.sendMsg (sendTags s (SendOutcome.sendOk (FetchOutcome.ok resp mrOk))) <
      firstIdx ETag.getMsgs (sendTags s (SendOutcome.sendOk (FetchOutcome.ok resp mrOk))) ∧
    firstIdx ETag.getMsgs (sendTags s (SendOutcome.sendOk (FetchOutcome.ok resp mrOk))) <
      firstIdx ETag.commitThread (sendTags s (SendOutcome.sendOk (FetchOutcome.ok resp mrOk))) := by
  refine ⟨?_, ?_, ?_, ?_, ?_, ?_, ?_, ?_⟩ <;>
    cases mrOk <;>
      simp [sendFinal, sendTrace, sendTags, handleSend, fetchMessages,
        commitThreadResponse, hsel, hval, Event.tag, countTag, firstIdx]

/-- Claim C8 witness: instantiated at the ready state with a successful
send and a successful reload of user 1's thread. -/
theorem sendMessage_success_path_wit :
    (sendFinal readySendState
        (SendOutcome.sendOk (FetchOutcome.ok respA true))).newMessage = "" ∧
    (sendFinal readySendState
        (SendOutcome.sendOk (FetchOutcome.ok respA true))).messages = respA.messages :=
  ⟨(sendMessage_success_path readySendState userA respA true rfl (by decide)).1,
   (sendMessage_success_path readySendState userA respA true rfl (by decide)).2.1⟩
